import Mathlib

/-! # Alert aggregation and proximity search: a verification development

Shallow embedding of the disaster-dashboard core logic: the `allAlerts`
aggregation in `src/frontend/src/components/Dashboard.jsx` (filter the three
event feeds to high/critical severity, project each event to a display alert,
and sort by severity rank then recency), together with the proximity search
(`nearest`) described in the design document.

Conventions of the embedding:
* Upstream JSON records may lack fields (JS `undefined`); such fields are
  modelled as `Option`.
* Timestamps are modelled as epoch milliseconds (`Int`), the value carried by
  the JS `Date` built from the record's timestamp string; a missing timestamp
  yields an invalid date, modelled as `none`.
* Numeric payload fields (magnitude, depth, water level, temperature) are
  modelled as rationals.
* `Array.prototype.sort` with a comparator is specified by ECMAScript as a
  stable sort in which a comparator value of NaN is treated as `+0`; it is
  modelled below by the stable insertion sort `sortBy`, with the NaN cases of
  the comparator mapped to `0`.
-/

/-! ## A stable comparator sort

`sortBy le` is a stable sort: it keeps an element before a later one unless
the comparator strictly demands the swap.  For a consistent comparator this is
exactly the behaviour ECMAScript specifies for `Array.prototype.sort`. -/

section StableSort

variable {α : Type} (le : α → α → Bool)

/-- Insert `a` into `l` in front of the first element `b` with `le a b`;
elements that compare equal to `a` and were already in `l` stay in front
(the earlier element keeps its place), which gives stability. -/
def oInsert (a : α) : List α → List α
  | [] => [a]
  | b :: l => if le a b then a :: b :: l else b :: oInsert a l

/-- Stable sort by the boolean comparator `le`. -/
def sortBy : List α → List α
  | [] => []
  | a :: l => oInsert le a (sortBy l)

theorem oInsert_perm (a : α) (l : List α) : List.Perm (oInsert le a l) (a :: l) := by
  induction l with
  | nil => simp [oInsert]
  | cons b t ih =>
    by_cases hab : le a b
    · simp [oInsert, hab]
    · simp only [oInsert, hab, if_neg, Bool.false_eq_true, not_false_eq_true, ite_false]
      exact (List.Perm.cons b ih).trans (List.Perm.swap a b t)

theorem sortBy_perm (l : List α) : List.Perm (sortBy le l) l := by
  induction l with
  | nil => simp [sortBy]
  | cons a t ih => exact (oInsert_perm le a (sortBy le t)).trans (List.Perm.cons a ih)

theorem mem_sortBy {x : α} {l : List α} : x ∈ sortBy le l ↔ x ∈ l :=
  (sortBy_perm le l).mem_iff

theorem length_sortBy (l : List α) : (sortBy le l).length = l.length :=
  (sortBy_perm le l).length_eq

theorem pairwise_oInsert (P : α → Prop)
    (total : ∀ a b, P a → P b → le a b = false → le b a = true)
    (trans : ∀ a b c, P a → P b → P c → le a b = true → le b c = true → le a c = true)
    (a : α) (l : List α) (ha : P a) (hl : ∀ x ∈ l, P x)
    (h : l.Pairwise (fun x y => le x y = true)) :
    (oInsert le a l).Pairwise (fun x y => le x y = true) := by
  induction l with
  | nil => simp [oInsert]
  | cons b t ih =>
    have hb : P b := hl b (List.mem_cons_self b t)
    have ht : ∀ x ∈ t, P x := fun x hx => hl x (List.mem_cons_of_mem b hx)
    rcases List.pairwise_cons.mp h with ⟨hbt, htp⟩
    by_cases hab : le a b
    · simp only [oInsert, hab, ite_true]
      refine List.pairwise_cons.mpr ⟨?_, h⟩
      intro y hy
      rcases List.mem_cons.mp hy with rfl | hyt
      · exact hab
      · exact trans a b y ha hb (ht y hyt) hab (hbt y hyt)
    · have hab' : le a b = false := by simpa using hab
      simp only [oInsert, hab', Bool.false_eq_true, not_false_eq_true, ite_false]
      refine List.pairwise_cons.mpr ⟨?_, ih ht htp⟩
      intro y hy
      have hy' : y ∈ a :: t := ((oInsert_perm le a t).mem_iff).mp hy
      rcases List.mem_cons.mp hy' with rfl | hyt
      · exact total y b ha hb hab'
      · exact hbt y hyt

theorem pairwise_sortBy (P : α → Prop)
    (total : ∀ a b, P a → P b → le a b = false → le b a = true)
    (trans : ∀ a b c, P a → P b → P c → le a b = true → le b c = true → le a c = true)
    (l : List α) (hl : ∀ x ∈ l, P x) :
    (sortBy le l).Pairwise (fun x y => le x y = true) := by
  induction l with
  | nil => simp [sortBy]
  | cons a t ih =>
    have ht : ∀ x ∈ t, P x := fun x hx => hl x (List.mem_cons_of_mem a hx)
    have hs : ∀ x ∈ sortBy le t, P x := fun x hx => ht x ((mem_sortBy le).mp hx)
    exact pairwise_oInsert le P total trans a (sortBy le t)
      (hl a (List.mem_cons_self a t)) hs (ih ht)

theorem sublist_oInsert (a : α) (l : List α) : List.Sublist l (oInsert le a l) := by
  induction l with
  | nil => simp [oInsert]
  | cons b t ih =>
    by_cases hab : le a b
    · simp only [oInsert, hab, ite_true]
      exact List.Sublist.cons a (List.Sublist.refl (b :: t))
    · simp only [oInsert, hab, Bool.false_eq_true, not_false_eq_true, ite_false]
      exact List.Sublist.cons₂ b ih

theorem pair_sublist_oInsert (x y : α) (m : List α) (hy : y ∈ m) (hxy : le x y = true) :
    List.Sublist [x, y] (oInsert le x m) := by
  induction m with
  | nil => cases hy
  | cons b t ih =>
    by_cases hxb : le x b
    · simp only [oInsert, hxb, ite_true]
      exact List.Sublist.cons₂ x (List.singleton_sublist.mpr hy)
    · simp only [oInsert, hxb, Bool.false_eq_true, not_false_eq_true, ite_false]
      rcases List.mem_cons.mp hy with rfl | hyt
      · exact absurd hxy (by simpa using hxb)
      · exact List.Sublist.cons b (ih hyt)

theorem pair_sublist_sortBy (x y : α) (l : List α) (hxy : le x y = true)
    (h : List.Sublist [x, y] l) : List.Sublist [x, y] (sortBy le l) := by
  induction l with
  | nil => cases h
  | cons a t ih =>
    cases h with
    | cons _ h' => exact (ih h').trans (sublist_oInsert le a (sortBy le t))
    | cons₂ _ h' =>
      have hy : y ∈ sortBy le t := (mem_sortBy le).mpr (List.singleton_sublist.mp h')
      exact pair_sublist_oInsert le x y (sortBy le t) hy hxy

end StableSort

/-! ## Event records and the dashboard alert views

Record shapes as consumed by the dashboard (`Dashboard.jsx`): only the fields
the `allAlerts` computation reads are carried, plus the coordinates used by the
map markers.  A field that an upstream record may lack is an `Option`. -/

/-- A seismic event record from the `/seismic/events` feed. -/
structure SeismicEvent where
  id : String
  risk_level : Option String
  magnitude : ℚ
  location : String
  timestamp : Option Int
  depth : ℚ
  latitude : Option ℚ
  longitude : Option ℚ
deriving DecidableEq, Repr

/-- A flood alert record from the `/flood/alerts` feed. -/
structure FloodAlert where
  id : String
  risk_level : Option String
  region : String
  timestamp : Option Int
  water_level : ℚ
  evacuation_advised : Bool
  latitude : Option ℚ
  longitude : Option ℚ
deriving DecidableEq, Repr

/-- A heat-wave alert record from the `/heatwave/alerts` feed. -/
structure HeatAlert where
  id : String
  risk_level : Option String
  region : String
  timestamp : Option Int
  temperature : ℚ
  feels_like : ℚ
  latitude : Option ℚ
  longitude : Option ℚ
deriving DecidableEq, Repr

/-- The three event kinds feeding the combined alert list. -/
inductive AlertType
  | seismic
  | flood
  | heat
deriving DecidableEq, Repr

/-- The normalized alert view pushed onto the `alerts` array in `allAlerts`. -/
structure Alert where
  type : AlertType
  level : Option String
  title : String
  location : String
  time : Option Int
  details : String
deriving DecidableEq, Repr

/-- The filter guarding every push in `allAlerts`:
`e.risk_level === "high" || e.risk_level === "critical"`
(a missing `risk_level` compares unequal to both strings). -/
def includeLevel (r : Option String) : Bool :=
  r == some "high" || r == some "critical"

/-- The alert object pushed for a seismic event. -/
def seismicToAlert (e : SeismicEvent) : Alert where
  type := AlertType.seismic
  level := e.risk_level
  title := "M" ++ toString e.magnitude ++ " Earthquake"
  location := e.location
  time := e.timestamp
  details := "Depth: " ++ toString e.depth ++ "km"

/-- The alert object pushed for a flood alert. -/
def floodToAlert (a : FloodAlert) : Alert where
  type := AlertType.flood
  level := a.risk_level
  title := "Flood Warning"
  location := a.region
  time := a.timestamp
  details := if a.evacuation_advised then "Evacuation Advised"
             else "Water Level: " ++ toString a.water_level ++ "m"

/-- The alert object pushed for a heat alert. -/
def heatToAlert (a : HeatAlert) : Alert where
  type := AlertType.heat
  level := a.risk_level
  title := "Heat Wave Alert"
  location := a.region
  time := a.timestamp
  details := toString a.temperature ++ "°C (Feels like " ++ toString a.feels_like ++ "°C)"

/-- Alerts contributed by the seismic `forEach` loop, in input order. -/
def seismicAlerts (es : List SeismicEvent) : List Alert :=
  (es.filter fun e => includeLevel e.risk_level).map seismicToAlert

/-- Alerts contributed by the flood `forEach` loop, in input order. -/
def floodAlerts (as : List FloodAlert) : List Alert :=
  (as.filter fun a => includeLevel a.risk_level).map floodToAlert

/-- Alerts contributed by the heat `forEach` loop, in input order. -/
def heatAlerts (as : List HeatAlert) : List Alert :=
  (as.filter fun a => includeLevel a.risk_level).map heatToAlert

/-- The `levelOrder` lookup table of the sort comparator:
`{ critical: 0, high: 1, moderate: 2, low: 3 }`; any other key reads back
`undefined`, modelled as `none`. -/
def levelOrder (s : String) : Option Int :=
  if s = "critical" then some 0
  else if s = "high" then some 1
  else if s = "moderate" then some 2
  else if s = "low" then some 3
  else none

/-- `levelOrder[a.level]` where `a.level` itself may be `undefined`. -/
def levelOrderOf : Option String → Option Int
  | some s => levelOrder s
  | none => none

/-- `tb - ta` on `Date` values: when either date is invalid the JS subtraction
is NaN, which `SortCompare` then treats as `+0`. -/
def dateDiff : Option Int → Option Int → Int
  | some tb, some ta => tb - ta
  | _, _ => 0

/-- The comparator passed to `alerts.sort`: compare `levelOrder` ranks first
(`!==`, so two `undefined` ranks fall through to the time comparison, while a
mixed number/`undefined` subtraction is NaN, treated as `+0`); on equal ranks
compare `b.time - a.time`. -/
def alertCompare (a b : Alert) : Int :=
  match levelOrderOf a.level, levelOrderOf b.level with
  | some la, some lb => if la = lb then dateDiff b.time a.time else la - lb
  | none, none => dateDiff b.time a.time
  | _, _ => 0

/-- `a` may stay in front of `b` exactly when the comparator is ≤ 0. -/
def alertLe (a b : Alert) : Bool :=
  alertCompare a b ≤ 0

/-- The `allAlerts` computation of `Dashboard.jsx`: push the high/critical
projections of the three feeds in the fixed seismic, flood, heat order, then
stable-sort by the comparator. -/
def aggregate (se : List SeismicEvent) (fl : List FloodAlert) (he : List HeatAlert) :
    List Alert :=
  sortBy alertLe (seismicAlerts se ++ floodAlerts fl ++ heatAlerts he)

/-- Severity rank as the spec reads it: critical 0, high 1, moderate 2, low 3.
Alerts in the aggregate output always carry a recognized level, so the default
value for an unrecognized level is never reached there. -/
def severityRank (a : Alert) : Int :=
  (levelOrderOf a.level).getD 4

/-! ## The `allAlerts` computation as a sequence of state transformers

To talk about what the computation writes, the body of the `useMemo` is also
embedded statement by statement over its local state: the three input arrays
and the freshly built `alerts` array.  Each `forEach` loop folds over its input
array and pushes onto `alerts`; the final in-place `sort` rewrites `alerts`.
No statement of the source targets an input array. -/

/-- The variables in scope in the `allAlerts` body. -/
structure DashState where
  seismicEvents : List SeismicEvent
  floodAlerts : List FloodAlert
  heatAlerts : List HeatAlert
  alerts : List Alert
deriving DecidableEq, Repr

/-- The seismic `forEach` loop: conditionally push onto `alerts`. -/
def seismicLoop (st : DashState) : DashState :=
  { st with alerts := (st.seismicEvents.foldl
      (fun acc e => if includeLevel e.risk_level then acc ++ [seismicToAlert e] else acc)
      st.alerts) }

/-- The flood `forEach` loop: conditionally push onto `alerts`. -/
def floodLoop (st : DashState) : DashState :=
  { st with alerts := (st.floodAlerts.foldl
      (fun acc a => if includeLevel a.risk_level then acc ++ [floodToAlert a] else acc)
      st.alerts) }

/-- The heat `forEach` loop: conditionally push onto `alerts`. -/
def heatLoop (st : DashState) : DashState :=
  { st with alerts := (st.heatAlerts.foldl
      (fun acc a => if includeLevel a.risk_level then acc ++ [heatToAlert a] else acc)
      st.alerts) }

/-- The final `alerts.sort(comparator)`: an in-place sort of the `alerts`
variable. -/
def sortStep (st : DashState) : DashState :=
  { st with alerts := sortBy alertLe st.alerts }

/-- The whole `allAlerts` body: the three loops in source order, then the
sort. -/
def allAlertsProg (st : DashState) : DashState :=
  sortStep (heatLoop (floodLoop (seismicLoop st)))

/-! ## Proximity search -/

/-- A hospital record as described by the design document's data model (the
descriptive and coordinate fields used by the proximity search). -/
structure Hospital where
  id : String
  name : String
  city : String
  region : String
  latitude : ℚ
  longitude : ℚ
deriving DecidableEq, Repr

/-- Modelled from the spec: the ProximitySearch backend serving
`/hospitals/nearby` is not among the sources here (only its caller in the
hospital locator appears), so `nearest` follows the design document: compute
the haversine great-circle distance (Earth radius R = 6371 km) from the
reference point to each hospital, sort ascending by it (stable sort, ties keep
input order), and return the first `k` hospitals (all of them when fewer than
`k` exist, none when `k ≤ 0`).  The haversine value is real-valued
trigonometry, so the distance computation is a parameter
`dist refLat refLon hospLat hospLon`; theorems below hold for every distance
function and hence for the haversine instance. -/
def nearest (dist : ℚ → ℚ → ℚ → ℚ → ℚ) (lat lon : ℚ)
    (hospitals : List Hospital) (k : Int) : List Hospital :=
  (sortBy (fun a b => dist lat lon a.latitude a.longitude ≤ dist lat lon b.latitude b.longitude)
    hospitals).take k.toNat

/-! ## Basic facts about the alert views -/

theorem includeLevel_iff {r : Option String} :
    includeLevel r = true ↔ r = some "high" ∨ r = some "critical" := by
  simp [includeLevel, Bool.or_eq_true, beq_iff_eq]

theorem levelOrder_critical : levelOrder "critical" = some 0 := rfl

theorem levelOrder_high : levelOrder "high" = some 1 := rfl

theorem levelOrder_moderate : levelOrder "moderate" = some 2 := rfl

theorem levelOrder_low : levelOrder "low" = some 3 := rfl

/-- The concatenated pre-sort alert list built by the three loops. -/
def alertViews (se : List SeismicEvent) (fl : List FloodAlert) (he : List HeatAlert) :
    List Alert :=
  seismicAlerts se ++ floodAlerts fl ++ heatAlerts he

theorem aggregate_eq_sortBy (se : List SeismicEvent) (fl : List FloodAlert)
    (he : List HeatAlert) : aggregate se fl he = sortBy alertLe (alertViews se fl he) := rfl

theorem level_of_mem_alertViews {se : List SeismicEvent} {fl : List FloodAlert}
    {he : List HeatAlert} {x : Alert} (hx : x ∈ alertViews se fl he) :
    x.level = some "high" ∨ x.level = some "critical" := by
  rcases List.mem_append.mp hx with h | h
  · rcases List.mem_append.mp h with h1 | h1
    · rcases List.mem_map.mp h1 with ⟨e, he1, rfl⟩
      exact includeLevel_iff.mp (List.mem_filter.mp he1).2
    · rcases List.mem_map.mp h1 with ⟨a, ha1, rfl⟩
      exact includeLevel_iff.mp (List.mem_filter.mp ha1).2
  · rcases List.mem_map.mp h with ⟨a, ha1, rfl⟩
    exact includeLevel_iff.mp (List.mem_filter.mp ha1).2

theorem time_of_mem_alertViews {se : List SeismicEvent} {fl : List FloodAlert}
    {he : List HeatAlert} (hse : ∀ e ∈ se, e.timestamp.isSome)
    (hfl : ∀ a ∈ fl, a.timestamp.isSome) (hhe : ∀ a ∈ he, a.timestamp.isSome)
    {x : Alert} (hx : x ∈ alertViews se fl he) : x.time.isSome := by
  rcases List.mem_append.mp hx with h | h
  · rcases List.mem_append.mp h with h1 | h1
    · rcases List.mem_map.mp h1 with ⟨e, he1, rfl⟩
      exact hse e (List.mem_filter.mp he1).1
    · rcases List.mem_map.mp h1 with ⟨a, ha1, rfl⟩
      exact hfl a (List.mem_filter.mp ha1).1
  · rcases List.mem_map.mp h with ⟨a, ha1, rfl⟩
    exact hhe a (List.mem_filter.mp ha1).1

/-- Well-formedness of an alert for the ordering argument: a recognized
high-priority level and a valid time. -/
def WFAlert (x : Alert) : Prop :=
  (x.level = some "high" ∨ x.level = some "critical") ∧ x.time.isSome

theorem alertLe_iff_WF {a b : Alert} (ha : WFAlert a) (hb : WFAlert b) :
    alertLe a b = true ↔
      (severityRank a < severityRank b ∨
        (severityRank a = severityRank b ∧ b.time.getD 0 ≤ a.time.getD 0)) := by
  rcases ha with ⟨hla, hta⟩
  rcases hb with ⟨hlb, htb⟩
  rcases Option.isSome_iff_exists.mp hta with ⟨ta, hta'⟩
  rcases Option.isSome_iff_exists.mp htb with ⟨tb, htb'⟩
  rcases hla with h1 | h1 <;> rcases hlb with h2 | h2 <;>
    simp [alertLe, alertCompare, severityRank, levelOrderOf, dateDiff, h1, h2, hta', htb',
      levelOrder_high, levelOrder_critical, decide_eq_true_eq]

theorem alertLe_total_WF (a b : Alert) (ha : WFAlert a) (hb : WFAlert b)
    (h : alertLe a b = false) : alertLe b a = true := by
  have h1 : ¬ (severityRank a < severityRank b ∨
      (severityRank a = severityRank b ∧ b.time.getD 0 ≤ a.time.getD 0)) := by
    rw [← alertLe_iff_WF ha hb]
    simp [h]
  rw [alertLe_iff_WF hb ha]
  omega

theorem alertLe_trans_WF (a b c : Alert) (ha : WFAlert a) (hb : WFAlert b) (hc : WFAlert c)
    (hab : alertLe a b = true) (hbc : alertLe b c = true) : alertLe a c = true := by
  rw [alertLe_iff_WF ha hb] at hab
  rw [alertLe_iff_WF hb hc] at hbc
  rw [alertLe_iff_WF ha hc]
  omega

/-- C1: every alert in the aggregate output carries severity `high` or
`critical`; events with any other severity value, unrecognized strings and
missing severity included, never contribute an alert. -/
theorem aggregate_only_high_critical (se : List SeismicEvent) (fl : List FloodAlert)
    (he : List HeatAlert) (a : Alert) (ha : a ∈ aggregate se fl he) :
    a.level = some "high" ∨ a.level = some "critical" :=
  level_of_mem_alertViews ((mem_sortBy alertLe).mp ha)

/-- C2: the aggregate output is sorted by severity rank ascending
(critical 0 < high 1 < moderate 2 < low 3) and, among equal ranks, by time
descending, for inputs whose records carry timestamps. -/
theorem aggregate_sorted (se : List SeismicEvent) (fl : List FloodAlert)
    (he : List HeatAlert) (hse : ∀ e ∈ se, e.timestamp.isSome)
    (hfl : ∀ a ∈ fl, a.timestamp.isSome) (hhe : ∀ a ∈ he, a.timestamp.isSome) :
    List.Chain' (fun a b => severityRank a ≤ severityRank b ∧
      (severityRank a = severityRank b → b.time.getD 0 ≤ a.time.getD 0))
      (aggregate se fl he) := by
  have hWF : ∀ x ∈ alertViews se fl he, WFAlert x := fun x hx =>
    ⟨level_of_mem_alertViews hx, time_of_mem_alertViews hse hfl hhe hx⟩
  have hp : (aggregate se fl he).Pairwise (fun x y => alertLe x y = true) := by
    rw [aggregate_eq_sortBy]
    exact pairwise_sortBy alertLe WFAlert alertLe_total_WF alertLe_trans_WF _ hWF
  have hWF' : ∀ x ∈ aggregate se fl he, WFAlert x := by
    intro x hx
    exact hWF x ((mem_sortBy alertLe).mp hx)
  refine List.Pairwise.chain' (List.Pairwise.imp_of_mem ?_ hp)
  intro a b hma hmb hab
  rw [alertLe_iff_WF (hWF' a hma) (hWF' b hmb)] at hab
  omega

/-! ## Concrete records used to witness the hypotheses of the theorems -/

/-- A well-formed critical seismic event. -/
def wSeismic : SeismicEvent where
  id := "s1"
  risk_level := some "critical"
  magnitude := 5
  location := "Rome"
  timestamp := some 100
  depth := 10
  latitude := some 42
  longitude := some 13

/-- A well-formed high flood alert. -/
def wFlood : FloodAlert where
  id := "f1"
  risk_level := some "high"
  region := "Veneto"
  timestamp := some 200
  water_level := 3
  evacuation_advised := false
  latitude := some 45
  longitude := some 12

/-- A well-formed low heat alert. -/
def wHeat : HeatAlert where
  id := "h1"
  risk_level := some "low"
  region := "Sicily"
  timestamp := some 300
  temperature := 40
  feels_like := 44
  latitude := some 37
  longitude := some 14

theorem aggregate_only_high_critical_witness :
    seismicToAlert wSeismic ∈ aggregate [wSeismic] [wFlood] [wHeat] ∧
    ((seismicToAlert wSeismic).level = some "high" ∨
      (seismicToAlert wSeismic).level = some "critical") :=
  ⟨by decide, aggregate_only_high_critical [wSeismic] [wFlood] [wHeat] _ (by decide)⟩

theorem aggregate_sorted_witness :
    ((∀ e ∈ [wSeismic], e.timestamp.isSome) ∧ (∀ a ∈ [wFlood], a.timestamp.isSome) ∧
      (∀ a ∈ [wHeat], a.timestamp.isSome)) ∧
    List.Chain' (fun a b => severityRank a ≤ severityRank b ∧
      (severityRank a = severityRank b → b.time.getD 0 ≤ a.time.getD 0))
      (aggregate [wSeismic] [wFlood] [wHeat]) :=
  ⟨by decide, aggregate_sorted [wSeismic] [wFlood] [wHeat]
    (by decide) (by decide) (by decide)⟩

/-! ## The concrete three-event scenario -/

/-- C5: a critical seismic event at `t1`, a high flood alert at a later `t2`
and a low heat alert are aggregated to exactly the seismic alert followed by
the flood alert. -/
theorem aggregate_scenario (e : SeismicEvent) (f : FloodAlert) (h : HeatAlert)
    (t1 t2 t3 : Int) (he1 : e.risk_level = some "critical") (he2 : e.timestamp = some t1)
    (hf1 : f.risk_level = some "high") (hf2 : f.timestamp = some t2)
    (hh1 : h.risk_level = some "low") (hh2 : h.timestamp = some t3)
    (ht : t1 < t2) :
    aggregate [e] [f] [h] = [seismicToAlert e, floodToAlert f] := by
  have hs : seismicAlerts [e] = [seismicToAlert e] := by
    simp [seismicAlerts, includeLevel, he1]
  have hf : floodAlerts [f] = [floodToAlert f] := by
    simp [floodAlerts, includeLevel, hf1]
  have hh : heatAlerts [h] = [] := by
    simp [heatAlerts, includeLevel, hh1]
  have hle : alertLe (seismicToAlert e) (floodToAlert f) = true := by
    simp [alertLe, alertCompare, seismicToAlert, floodToAlert, levelOrderOf, he1, hf1,
      levelOrder_critical, levelOrder_high]
  simp [aggregate_eq_sortBy, alertViews, hs, hf, hh, sortBy, oInsert, hle]

theorem aggregate_scenario_witness :
    (wSeismic.risk_level = some "critical" ∧ wSeismic.timestamp = some 100 ∧
      wFlood.risk_level = some "high" ∧ wFlood.timestamp = some 200 ∧
      wHeat.risk_level = some "low" ∧ wHeat.timestamp = some 300 ∧ (100 : Int) < 200) ∧
    aggregate [wSeismic] [wFlood] [wHeat] = [seismicToAlert wSeismic, floodToAlert wFlood] :=
  ⟨by decide, aggregate_scenario wSeismic wFlood wHeat 100 200 300
    rfl rfl rfl rfl rfl rfl (by decide)⟩

/-! ## Per-kind shape of the produced alerts -/

theorem mem_alertViews_iff {a : Alert} {se : List SeismicEvent} {fl : List FloodAlert}
    {he : List HeatAlert} :
    a ∈ alertViews se fl he ↔
      (∃ e, (e ∈ se ∧ includeLevel e.risk_level = true) ∧ seismicToAlert e = a) ∨
      (∃ f, (f ∈ fl ∧ includeLevel f.risk_level = true) ∧ floodToAlert f = a) ∨
      (∃ h, (h ∈ he ∧ includeLevel h.risk_level = true) ∧ heatToAlert h = a) := by
  simp [alertViews, seismicAlerts, floodAlerts, heatAlerts, List.mem_map, List.mem_filter]

/-- C6: each alert of the output comes from an input event of its kind, with
title and details built by the kind's template: seismic events give
`M{magnitude} Earthquake` and `Depth: {depth}km`, flood alerts give
`Evacuation Advised` when advised and `Water Level: {waterLevel}m` otherwise,
and heat alerts give `{temperature}°C (Feels like {feelsLike}°C)`. -/
theorem aggregate_details (se : List SeismicEvent) (fl : List FloodAlert)
    (he : List HeatAlert) (a : Alert) (ha : a ∈ aggregate se fl he) :
    (a.type = AlertType.seismic → ∃ e, e ∈ se ∧ a = seismicToAlert e ∧
      a.title = "M" ++ toString e.magnitude ++ " Earthquake" ∧
      a.details = "Depth: " ++ toString e.depth ++ "km") ∧
    (a.type = AlertType.flood → ∃ f, f ∈ fl ∧ a = floodToAlert f ∧
      a.details = (if f.evacuation_advised then "Evacuation Advised"
        else "Water Level: " ++ toString f.water_level ++ "m")) ∧
    (a.type = AlertType.heat → ∃ h, h ∈ he ∧ a = heatToAlert h ∧
      a.details = toString h.temperature ++ "°C (Feels like " ++
        toString h.feels_like ++ "°C)") := by
  have hv := mem_alertViews_iff.mp ((mem_sortBy alertLe).mp ha)
  rcases hv with ⟨e, ⟨hmem, _⟩, rfl⟩ | ⟨f, ⟨hmem, _⟩, rfl⟩ | ⟨h, ⟨hmem, _⟩, rfl⟩
  · refine ⟨fun _ => ⟨e, hmem, rfl, rfl, rfl⟩, fun ht => ?_, fun ht => ?_⟩ <;>
      simp [seismicToAlert] at ht
  · refine ⟨fun ht => ?_, fun _ => ⟨f, hmem, rfl, rfl⟩, fun ht => ?_⟩ <;>
      simp [floodToAlert] at ht
  · refine ⟨fun ht => ?_, fun ht => ?_, fun _ => ⟨h, hmem, rfl, rfl⟩⟩ <;>
      simp [heatToAlert] at ht

theorem aggregate_details_witness :
    floodToAlert wFlood ∈ aggregate [wSeismic] [wFlood] [wHeat] ∧
    (((floodToAlert wFlood).type = AlertType.seismic → ∃ e, e ∈ [wSeismic] ∧
        floodToAlert wFlood = seismicToAlert e ∧
        (floodToAlert wFlood).title = "M" ++ toString e.magnitude ++ " Earthquake" ∧
        (floodToAlert wFlood).details = "Depth: " ++ toString e.depth ++ "km") ∧
      ((floodToAlert wFlood).type = AlertType.flood → ∃ f, f ∈ [wFlood] ∧
        floodToAlert wFlood = floodToAlert f ∧
        (floodToAlert wFlood).details = (if f.evacuation_advised then "Evacuation Advised"
          else "Water Level: " ++ toString f.water_level ++ "m")) ∧
      ((floodToAlert wFlood).type = AlertType.heat → ∃ h, h ∈ [wHeat] ∧
        floodToAlert wFlood = heatToAlert h ∧
        (floodToAlert wFlood).details = toString h.temperature ++ "°C (Feels like " ++
          toString h.feels_like ++ "°C)")) :=
  ⟨by decide, aggregate_details [wSeismic] [wFlood] [wHeat] _ (by decide)⟩

/-! ## Stability of the aggregate ordering -/

theorem levelOrder_ne_four {s : String} {x : Int} (h : levelOrder s = some x) : x ≠ 4 := by
  unfold levelOrder at h
  split at h
  · injection h with h
    omega
  · split at h
    · injection h with h
      omega
    · split at h
      · injection h with h
        omega
      · split at h
        · injection h with h
          omega
        · exact absurd h (by simp)

theorem levelOrderOf_ne_four {r : Option String} {x : Int} (h : levelOrderOf r = some x) :
    x ≠ 4 := by
  cases r with
  | none => exact absurd h (by simp [levelOrderOf])
  | some s => exact levelOrder_ne_four (by simpa [levelOrderOf] using h)

theorem alertLe_of_tie {a b : Alert} (hrank : severityRank a = severityRank b)
    (htime : a.time = b.time) : alertLe a b = true := by
  unfold severityRank at hrank
  unfold alertLe alertCompare
  cases hla : levelOrderOf a.level with
  | none =>
    cases hlb : levelOrderOf b.level with
    | none =>
      cases hbt : b.time <;> cases hat : a.time <;>
        simp_all [dateDiff]
    | some lb =>
      exfalso
      rw [hla, hlb] at hrank
      simp only [Option.getD_none, Option.getD_some] at hrank
      exact levelOrderOf_ne_four hlb (by omega)
  | some la =>
    cases hlb : levelOrderOf b.level with
    | none =>
      exfalso
      rw [hla, hlb] at hrank
      simp only [Option.getD_none, Option.getD_some] at hrank
      exact levelOrderOf_ne_four hla (by omega)
    | some lb =>
      rw [hla, hlb] at hrank
      simp only [Option.getD_some] at hrank
      subst hrank
      cases hbt : b.time <;> cases hat : a.time <;>
        simp_all [dateDiff]

/-- C7: two alerts with equal severity rank and exactly equal timestamps keep,
in the aggregate output, the relative order they have in the concatenation of
the seismic, flood and heat contributions (in that fixed precedence): the sort
is stable. -/
theorem aggregate_stable (se : List SeismicEvent) (fl : List FloodAlert)
    (he : List HeatAlert) (a b : Alert)
    (hsub : List.Sublist [a, b] (alertViews se fl he))
    (hrank : severityRank a = severityRank b) (htime : a.time = b.time) :
    List.Sublist [a, b] (aggregate se fl he) := by
  rw [aggregate_eq_sortBy]
  exact pair_sublist_sortBy alertLe a b (alertViews se fl he)
    (alertLe_of_tie hrank htime) hsub

/-- A flood alert simultaneous and level-equal to `wFlood`, for the stability
witness. -/
def wFlood2 : FloodAlert where
  id := "f2"
  risk_level := some "high"
  region := "Liguria"
  timestamp := some 200
  water_level := 2
  evacuation_advised := true
  latitude := some 44
  longitude := some 9

theorem aggregate_stable_witness :
    (List.Sublist [floodToAlert wFlood, floodToAlert wFlood2]
        (alertViews [] [wFlood, wFlood2] []) ∧
      severityRank (floodToAlert wFlood) = severityRank (floodToAlert wFlood2) ∧
      (floodToAlert wFlood).time = (floodToAlert wFlood2).time) ∧
    List.Sublist [floodToAlert wFlood, floodToAlert wFlood2]
      (aggregate [] [wFlood, wFlood2] []) :=
  ⟨by decide, aggregate_stable [] [wFlood, wFlood2] [] _ _
    (by decide) (by decide) (by decide)⟩

/-! ## Output cardinality -/

/-- C9: the aggregate output has exactly one alert per input event whose
severity is `high` or `critical`, across the three feeds; in particular no
deduplication happens, so repeated ids still count once per occurrence. -/
theorem aggregate_length (se : List SeismicEvent) (fl : List FloodAlert)
    (he : List HeatAlert) :
    (aggregate se fl he).length =
      (se.countP fun e => decide (e.risk_level = some "high" ∨ e.risk_level = some "critical")) +
      (fl.countP fun a => decide (a.risk_level = some "high" ∨ a.risk_level = some "critical")) +
      (he.countP fun a => decide (a.risk_level = some "high" ∨ a.risk_level = some "critical")) := by
  have hp : ∀ r : Option String,
      includeLevel r = decide (r = some "high" ∨ r = some "critical") := by
    intro r
    by_cases hr : r = some "high" ∨ r = some "critical"
    · rw [includeLevel_iff.mpr hr, decide_eq_true hr]
    · rw [decide_eq_false hr, ← Bool.not_eq_true]
      exact fun hc => hr (includeLevel_iff.mp hc)
  rw [aggregate_eq_sortBy, length_sortBy, alertViews]
  simp only [List.length_append, seismicAlerts, floodAlerts, heatAlerts, List.length_map,
    List.countP_eq_length_filter]
  simp only [hp]

/-! ## The frame property of the `allAlerts` body -/

theorem foldl_push {β : Type} (p : β → Bool) (g : β → Alert) (l : List β) (acc : List Alert) :
    l.foldl (fun acc e => if p e then acc ++ [g e] else acc) acc
      = acc ++ (l.filter p).map g := by
  induction l generalizing acc with
  | nil => simp
  | cons a t ih =>
    by_cases h : p a <;> simp [List.foldl_cons, h, ih, List.filter_cons]

/-- C10: the `allAlerts` body never writes the three input arrays: started on
any inputs with a fresh empty `alerts` array, the three push loops followed by
the in-place sort leave `seismicEvents`, `floodAlerts` and `heatAlerts` exactly
as given, and put the aggregate into `alerts`. -/
theorem allAlertsProg_frame (se : List SeismicEvent) (fl : List FloodAlert)
    (he : List HeatAlert) :
    allAlertsProg ⟨se, fl, he, []⟩ = ⟨se, fl, he, aggregate se fl he⟩ := by
  simp [allAlertsProg, seismicLoop, floodLoop, heatLoop, sortStep, foldl_push,
    aggregate_eq_sortBy, alertViews, seismicAlerts, floodAlerts, heatAlerts]

/-! ## Malformed records -/

/-- A high-severity seismic event missing its timestamp and coordinates. -/
def cexSeismic : SeismicEvent where
  id := "sx"
  risk_level := some "high"
  magnitude := 4
  location := "Napoli"
  timestamp := none
  depth := 8
  latitude := none
  longitude := none

/-- C3 fails on the code as stated: a record missing its timestamp and
coordinates is not skipped when its severity is `high` — it produces an output
alert (the filter looks only at `risk_level`). -/
theorem aggregate_malformed_cex :
    cexSeismic.timestamp = none ∧ cexSeismic.latitude = none ∧ cexSeismic.longitude = none ∧
    aggregate [cexSeismic] [] [] = [seismicToAlert cexSeismic] := by decide

/-- C3 amended: a record whose severity is missing or unrecognized is skipped
and leaves the aggregation of the remaining records unchanged; a record whose
severity is `high` or `critical` is included even when its timestamp or
coordinates are missing; in neither case does a malformed record abort the
aggregation. -/
theorem aggregate_malformed (se : List SeismicEvent) (fl : List FloodAlert)
    (he : List HeatAlert) (e : SeismicEvent) (f : FloodAlert) (h : HeatAlert) :
    (includeLevel e.risk_level = false → aggregate (e :: se) fl he = aggregate se fl he) ∧
    (includeLevel f.risk_level = false → aggregate se (f :: fl) he = aggregate se fl he) ∧
    (includeLevel h.risk_level = false → aggregate se fl (h :: he) = aggregate se fl he) ∧
    (includeLevel e.risk_level = true → seismicToAlert e ∈ aggregate (e :: se) fl he) ∧
    (includeLevel f.risk_level = true → floodToAlert f ∈ aggregate se (f :: fl) he) ∧
    (includeLevel h.risk_level = true → heatToAlert h ∈ aggregate se fl (h :: he)) := by
  refine ⟨fun hx => ?_, fun hx => ?_, fun hx => ?_, fun hx => ?_, fun hx => ?_, fun hx => ?_⟩
  · simp [aggregate, seismicAlerts, List.filter_cons, hx]
  · simp [aggregate, floodAlerts, List.filter_cons, hx]
  · simp [aggregate, heatAlerts, List.filter_cons, hx]
  · exact (mem_sortBy alertLe).mpr (mem_alertViews_iff.mpr
      (Or.inl ⟨e, ⟨List.mem_cons_self e se, hx⟩, rfl⟩))
  · exact (mem_sortBy alertLe).mpr (mem_alertViews_iff.mpr
      (Or.inr (Or.inl ⟨f, ⟨List.mem_cons_self f fl, hx⟩, rfl⟩)))
  · exact (mem_sortBy alertLe).mpr (mem_alertViews_iff.mpr
      (Or.inr (Or.inr ⟨h, ⟨List.mem_cons_self h he, hx⟩, rfl⟩)))

/-- A flood record with no severity at all. -/
def cexFlood : FloodAlert where
  id := "fx"
  risk_level := none
  region := "Toscana"
  timestamp := none
  water_level := 1
  evacuation_advised := false
  latitude := none
  longitude := none

theorem aggregate_malformed_witness :
    (includeLevel cexFlood.risk_level = false ∧ includeLevel cexSeismic.risk_level = true) ∧
    aggregate [] [cexFlood] [] = aggregate [] [] [] ∧
    seismicToAlert cexSeismic ∈ aggregate [cexSeismic] [] [] :=
  ⟨by decide,
    (aggregate_malformed [] [] [] cexSeismic cexFlood
      ⟨"hx", none, "", none, 0, 0, none, none⟩).2.1 (by decide),
    (aggregate_malformed [] [] [] cexSeismic cexFlood
      ⟨"hx", none, "", none, 0, 0, none, none⟩).2.2.2.1 (by decide)⟩

/-! ## Proximity search properties -/

/-- The ascending-by-distance comparison used by the proximity sort. -/
def hospLe (dist : ℚ → ℚ → ℚ → ℚ → ℚ) (lat lon : ℚ) (a b : Hospital) : Bool :=
  dist lat lon a.latitude a.longitude ≤ dist lat lon b.latitude b.longitude

theorem nearest_eq_sortBy (dist : ℚ → ℚ → ℚ → ℚ → ℚ) (lat lon : ℚ)
    (H : List Hospital) (k : Int) :
    nearest dist lat lon H k = (sortBy (hospLe dist lat lon) H).take k.toNat := rfl

theorem hospLe_total (dist : ℚ → ℚ → ℚ → ℚ → ℚ) (lat lon : ℚ) (a b : Hospital)
    (h : hospLe dist lat lon a b = false) : hospLe dist lat lon b a = true := by
  simp only [hospLe, decide_eq_false_iff_not, not_le, decide_eq_true_eq] at h ⊢
  exact le_of_lt h

theorem hospLe_trans (dist : ℚ → ℚ → ℚ → ℚ → ℚ) (lat lon : ℚ) (a b c : Hospital)
    (hab : hospLe dist lat lon a b = true) (hbc : hospLe dist lat lon b c = true) :
    hospLe dist lat lon a c = true := by
  simp only [hospLe, decide_eq_true_eq] at hab hbc ⊢
  exact le_trans hab hbc

/-- C4: for every distance function — in particular the haversine great-circle
distance with R = 6371 km — the proximity search returns `min k |H|` hospitals,
in ascending order of distance from the reference point. -/
theorem nearest_length_sorted (dist : ℚ → ℚ → ℚ → ℚ → ℚ) (lat lon : ℚ)
    (H : List Hospital) (k : Int) (hk : 0 ≤ k) :
    (nearest dist lat lon H k).length = min k.toNat H.length ∧
    List.Chain' (fun a b =>
        dist lat lon a.latitude a.longitude ≤ dist lat lon b.latitude b.longitude)
      (nearest dist lat lon H k) := by
  constructor
  · rw [nearest_eq_sortBy, List.length_take, length_sortBy]
  · have hp : (sortBy (hospLe dist lat lon) H).Pairwise
        (fun x y => hospLe dist lat lon x y = true) :=
      pairwise_sortBy (hospLe dist lat lon) (fun _ => True)
        (fun a b _ _ => hospLe_total dist lat lon a b)
        (fun a b c _ _ _ => hospLe_trans dist lat lon a b c)
        H (fun _ _ => trivial)
    have ht : (nearest dist lat lon H k).Pairwise
        (fun x y => hospLe dist lat lon x y = true) := by
      rw [nearest_eq_sortBy]
      exact hp.sublist (List.take_sublist _ _)
    refine List.Pairwise.chain' (ht.imp ?_)
    intro a b hab
    simpa [hospLe, decide_eq_true_eq] using hab

/-- A constant distance function used only to instantiate the quantified
distance parameter in witnesses. -/
def wDist : ℚ → ℚ → ℚ → ℚ → ℚ := fun _ _ _ _ => 0

/-- A hospital record for the proximity witnesses. -/
def wHosp : Hospital where
  id := "o1"
  name := "Policlinico"
  city := "Rome"
  region := "Lazio"
  latitude := 41
  longitude := 12

theorem nearest_length_sorted_witness :
    (0 ≤ (2 : Int)) ∧
    ((nearest wDist 41 12 [wHosp] 2).length = min (2 : Int).toNat [wHosp].length ∧
      List.Chain' (fun a b =>
          wDist 41 12 a.latitude a.longitude ≤ wDist 41 12 b.latitude b.longitude)
        (nearest wDist 41 12 [wHosp] 2)) :=
  ⟨by decide, nearest_length_sorted wDist 41 12 [wHosp] 2 (by decide)⟩

/-- C8: a non-positive `k` yields the empty result for any hospital list, and
the empty hospital list yields the empty result for any `k`, never an error. -/
theorem nearest_edge (dist : ℚ → ℚ → ℚ → ℚ → ℚ) (lat lon : ℚ)
    (H : List Hospital) (k : Int) :
    (k ≤ 0 → nearest dist lat lon H k = []) ∧ nearest dist lat lon [] k = [] := by
  constructor
  · intro hk
    rw [nearest_eq_sortBy]
    simp [Int.toNat_of_nonpos hk]
  · rw [nearest_eq_sortBy]
    simp [sortBy]

theorem nearest_edge_witness :
    ((-1 : Int) ≤ 0 ∧ nearest wDist 41 12 [wHosp] (-1) = []) ∧
    nearest wDist 41 12 [] 5 = [] :=
  ⟨⟨by decide, (nearest_edge wDist 41 12 [wHosp] (-1)).1 (by decide)⟩,
    (nearest_edge wDist 41 12 [] 5).2⟩
